import Mathlib

/-!
Shallow embedding of the vibe-learning Claude Code hooks
(src/hooks/track_activity.py and src/hooks/check_learning.py).

The persisted tracker file is a JSON object whose keys may be individually
absent, so the `Tracker` record uses `Option` fields; every read in the
source goes through `dict.get(key, default)`, modelled by `Option.getD`.
Python integers are unbounded, so epoch-millisecond timestamps and counters
are `Int`.  The `in` substring operator of Python is modelled by `pyIn` as
a list-infix test on the characters.  Effects are made explicit: a hook
run returns the state it passed to `save_tracker`, or `none` when it exits
without writing.
-/

namespace VibeLearning

/-- Python's `sub in s` substring test on strings. -/
def pyIn (pat s : String) : Bool := decide (pat.data <:+: s.data)

/-- Python's `s.lower()` (over the characters). -/
def pyLower (s : String) : String := String.mk (s.data.map Char.toLower)

/-- The persisted tracker record (`claude_tracker.json`); each field may be
absent from the stored JSON object, hence `Option`. -/
structure Tracker where
  tool_count : Option Int
  last_learning_prompt : Option Int
  senior_enabled : Option Bool
  after_enabled : Option Bool
  concepts : Option (List String)
deriving Repr, DecidableEq

/-- The default record both hooks fall back to when the tracker file is
absent or unparseable (the dict literal in `load_tracker`). -/
def defaultTracker : Tracker :=
  { tool_count := some 0
    last_learning_prompt := some 0
    senior_enabled := some true
    after_enabled := some true
    concepts := some [] }

/-- Embeds `load_tracker`: `stored = none` models a missing or unparseable file. -/
def load_tracker (stored : Option Tracker) : Tracker := stored.getD defaultTracker

/-- The `tool_input` JSON object of an event: only the three keys the hooks
ever read are modelled; each may be absent. -/
structure ToolInput where
  file_path : Option String
  path : Option String
  command : Option String
deriving Repr, DecidableEq

/-- The empty dict `data.get("tool_input", \x7b\x7d)` falls back to. -/
def emptyToolInput : ToolInput := ⟨none, none, none⟩

/-- The stdin event object `\x7btool_name, tool_input\x7d`. -/
structure EventData where
  tool_name : Option String
  tool_input : Option ToolInput
deriving Repr, DecidableEq

/-- The ordered keyword-rule table of `extract_concept`. -/
def patterns : List (List String × String) :=
  [ (["test", "spec"], "unit-testing"),
    (["auth", "login", "jwt"], "authentication"),
    (["api", "endpoint", "route"], "api-design"),
    (["cache", "redis"], "caching"),
    ([".tsx", ".jsx"], "react-components"),
    (["db", "database", "prisma"], "database") ]

/-- Embeds `extract_concept(tool_name, tool_input)` from track_activity.py:
path := `file_path` or (if falsy) `path`; the nested loops return the topic
of the first keyword of the first rule matching the lowercased path, else
check the (not lowercased) command for "git" then "docker". -/
def extract_concept (tool_name : String) (tool_input : ToolInput) : Option String :=
  let fp0 := tool_input.file_path.getD ""
  let file_path := if fp0 = "" then tool_input.path.getD "" else fp0
  let command := tool_input.command.getD ""
  match patterns.findSome? (fun pc =>
      (pc.1.find? (fun kw => pyIn (pyLower kw) (pyLower file_path))).map (fun _ => pc.2)) with
  | some c => some c
  | none =>
      if pyIn "git" command then some "git-workflow"
      else if pyIn "docker" command then some "containerization"
      else none

/-- Modelled from the spec (section 4.1 inferTopic): evaluate the ordered rule
list in declaration order, returning the topic of the first rule whose
keyword set has a case-insensitive substring match against the path; only
when no path rule matched, check the command for "git" then "docker". -/
def firstRuleMatch (path : String) : List (List String × String) → Option String
  | [] => none
  | (kws, topic) :: rest =>
      if kws.any (fun kw => pyIn (pyLower kw) (pyLower path)) then some topic
      else firstRuleMatch path rest

/-- Modelled from the spec (section 4.1): the spec-worded inferTopic, to be
compared against `extract_concept` taken from the source. -/
def inferTopicSpec (tool_input : ToolInput) : Option String :=
  let fp0 := tool_input.file_path.getD ""
  let path := if fp0 = "" then tool_input.path.getD "" else fp0
  let command := tool_input.command.getD ""
  match firstRuleMatch path patterns with
  | some t => some t
  | none =>
      if pyIn "git" command then some "git-workflow"
      else if pyIn "docker" command then some "containerization"
      else none

/-- The constants of check_learning.py. -/
def TOOL_THRESHOLD : Int := 3

def COOLDOWN_MS : Int := 15 * 60 * 1000

def SIGNIFICANT_TOOLS : List String := ["Edit", "Write", "Bash"]

/-- The literal fallback concept hint. -/
def fallbackHint : String := "the task you just completed"

/-- The f-string `reason` template of check_learning.py with the concept hint
substituted at its two holes. -/
def prompt_reason (concept_hint : String) : String :=
  "[VibeLearning - Task Completion]\n\nExecute these steps NOW:\n\n1. Record 1-2 unknown unknowns (related concepts user might not know):\n   mcp__vibe-learning__record_unknown_unknown(\x7b\n     concept_id: \"related-concept\",\n     related_to: \""
    ++ concept_hint
    ++ "\",\n     context: \"brief context\",\n     why_important: \"why important\"\n   \x7d)\n\n2. Call mcp__vibe-learning__should_ask_question to check if learning question needed.\n\n3. If shouldAsk is true:\n   - Call mcp__vibe-learning__get_concept_level with concept_id=\x27"
    ++ concept_hint
    ++ "\x27\n   - Ask with format:\n     **[VibeLearning]**\n     _Learning Question (Level X)_\n     [Your question]?\n   - After answer, call mcp__vibe-learning__record_learning\n\n4. If shouldAsk is false: you may stop."

/-- The hook decision printed on stdout: `allow` models exiting silently,
`block` models printing the JSON object with decision "block" and the
given reason text. -/
inductive Decision where
  | allow : Decision
  | block : String → Decision
deriving Repr, DecidableEq

/-- Outcome of one run of check_learning.py: the decision emitted and the
state handed to `save_tracker` (`none` when it exits without writing). -/
structure CheckResult where
  decision : Decision
  saved : Option Tracker
deriving Repr, DecidableEq

/-- Embeds `main` of check_learning.py on an already-loaded tracker: `stdinData`
models the `json.load(sys.stdin)` result (`none` when it was unparseable,
in which case the source uses an empty dict); the parsed data is a
parameter because the source binds it, though it never reads it. -/
def check_learning (stdinData : Option EventData) (tracker : Tracker) (now : Int) :
    CheckResult :=
  let _data := stdinData.getD ⟨none, none⟩
  let tool_count := tracker.tool_count.getD 0
  let last_prompt := tracker.last_learning_prompt.getD 0
  let after_enabled := tracker.after_enabled.getD true
  if after_enabled = false ∨ tool_count < TOOL_THRESHOLD then
    { decision := .allow, saved := none }
  else if now - last_prompt < COOLDOWN_MS then
    { decision := .allow, saved := none }
  else
    let concepts := tracker.concepts.getD []
    let concept_hint := concepts.getLast?.getD fallbackHint
    let tracker' := { tracker with
      tool_count := some 0, last_learning_prompt := some now }
    { decision := .block (prompt_reason concept_hint), saved := some tracker' }

/-- Embeds `main` of track_activity.py on an already-loaded tracker: returns the
state handed to `save_tracker`, or `none` when the hook exits without
writing (unparseable stdin, or an insignificant tool name). -/
def track_activity (stdinData : Option EventData) (tracker : Tracker) :
    Option Tracker :=
  match stdinData with
  | none => none
  | some data =>
      let tool_name := data.tool_name.getD ""
      if tool_name ∈ SIGNIFICANT_TOOLS then
        let t1 := { tracker with tool_count := some (tracker.tool_count.getD 0 + 1) }
        match extract_concept tool_name (data.tool_input.getD emptyToolInput) with
        | none => some t1
        | some concept =>
            let concepts := t1.concepts.getD []
            if concept ∈ concepts then some t1
            else
              let concepts2 := concepts ++ [concept]
              let concepts3 := if concepts2.length > 10 then concepts2.drop 1 else concepts2
              some { t1 with concepts := some concepts3 }
      else none

/-- Exit behaviour of a hook process: a clean `sys.exit(code)` or an
uncaught Python exception (which terminates the interpreter nonzero). -/
inductive ExitResult where
  | exited : Nat → ExitResult
  | raised : ExitResult
deriving Repr, DecidableEq

/-- Process-level run of check_learning.py. `stored` models the tracker
file (`none` = absent or unparseable, caught inside `load_tracker`);
`writeOk` models whether writing the tracker file succeeds.  `save_tracker`
is called outside any try/except, so a failing write raises. -/
def check_learning_exit (stdinData : Option EventData) (stored : Option Tracker)
    (now : Int) (writeOk : Bool) : ExitResult :=
  let tracker := load_tracker stored
  match (check_learning stdinData tracker now).saved with
  | none => .exited 0
  | some _ => if writeOk then .exited 0 else .raised

/-- Process-level run of track_activity.py; as in the source, `save_tracker`
is unguarded, so a failing write raises. -/
def track_activity_exit (stdinData : Option EventData) (stored : Option Tracker)
    (writeOk : Bool) : ExitResult :=
  match track_activity stdinData (load_tracker stored) with
  | none => .exited 0
  | some _ => if writeOk then .exited 0 else .raised

/-- One hook invocation, as seen by the persisted tracker file. -/
inductive HookStep where
  | record : Option EventData → HookStep
  | check : Option EventData → Int → HookStep

/-- The effective (point-of-use) value of `last_learning_prompt`. -/
def effLast (t : Tracker) : Int := t.last_learning_prompt.getD 0

/-- The persisted state after one hook run: the saved state when the hook
wrote, the previous file contents otherwise. -/
def runStep : HookStep → Tracker → Tracker
  | .record d, t => (track_activity d t).getD t
  | .check d now, t => ((check_learning d t now).saved).getD t

/-- The persisted state after a sequence of hook runs. -/
def runSteps (steps : List HookStep) (t : Tracker) : Tracker :=
  steps.foldl (fun acc s => runStep s acc) t

/-- A tracker with every field replaced by its point-of-use effective value
(the `dict.get` default where the field is absent). -/
def effTracker (t : Tracker) : Tracker :=
  { tool_count := some (t.tool_count.getD 0)
    last_learning_prompt := some (t.last_learning_prompt.getD 0)
    senior_enabled := some (t.senior_enabled.getD true)
    after_enabled := some (t.after_enabled.getD true)
    concepts := some (t.concepts.getD []) }

/-! ## Helper lemmas -/

lemma check_learning_eq_block (d : Option EventData) (t : Tracker) (now : Int)
    (hafter : t.after_enabled.getD true = true)
    (hcount : TOOL_THRESHOLD ≤ t.tool_count.getD 0)
    (hcool : COOLDOWN_MS ≤ now - t.last_learning_prompt.getD 0) :
    check_learning d t now =
      { decision := Decision.block
          (prompt_reason ((t.concepts.getD []).getLast?.getD fallbackHint)),
        saved := some { t with
          tool_count := some 0, last_learning_prompt := some now } } := by
  have h1 : ¬ (t.after_enabled.getD true = false ∨
      t.tool_count.getD 0 < TOOL_THRESHOLD) := by
    rw [hafter]
    push_neg
    exact ⟨by decide, hcount⟩
  have h2 : ¬ (now - t.last_learning_prompt.getD 0 < COOLDOWN_MS) :=
    not_lt.mpr hcool
  simp only [check_learning, if_neg h1, if_neg h2]

lemma check_learning_eq_allow_of_cooldown (d : Option EventData) (t : Tracker)
    (now : Int) (hcool : now - t.last_learning_prompt.getD 0 < COOLDOWN_MS) :
    check_learning d t now = { decision := Decision.allow, saved := none } := by
  by_cases h1 : t.after_enabled.getD true = false ∨
      t.tool_count.getD 0 < TOOL_THRESHOLD
  · simp only [check_learning, if_pos h1]
  · simp only [check_learning, if_neg h1, if_pos hcool]

lemma track_activity_insignificant (data : EventData) (t : Tracker)
    (h : data.tool_name.getD "" ∉ SIGNIFICANT_TOOLS) :
    track_activity (some data) t = none := by
  simp only [track_activity, if_neg h]

lemma track_activity_significant (data : EventData) (t : Tracker)
    (hsig : data.tool_name.getD "" ∈ SIGNIFICANT_TOOLS) :
    track_activity (some data) t =
      some (match extract_concept (data.tool_name.getD "")
              (data.tool_input.getD emptyToolInput) with
        | none => { t with tool_count := some (t.tool_count.getD 0 + 1) }
        | some c =>
            if c ∈ t.concepts.getD [] then
              { t with tool_count := some (t.tool_count.getD 0 + 1) }
            else
              { t with
                tool_count := some (t.tool_count.getD 0 + 1)
                concepts := some (if ((t.concepts.getD []) ++ [c]).length > 10
                  then ((t.concepts.getD []) ++ [c]).drop 1
                  else (t.concepts.getD []) ++ [c]) }) := by
  simp only [track_activity, if_pos hsig]
  cases extract_concept (data.tool_name.getD "") (data.tool_input.getD emptyToolInput) with
  | none => rfl
  | some c =>
      dsimp only
      by_cases hm : c ∈ t.concepts.getD []
      · simp only [if_pos hm]
      · simp only [if_neg hm]

lemma track_activity_last (d : Option EventData) (t t' : Tracker)
    (h : track_activity d t = some t') :
    t'.last_learning_prompt = t.last_learning_prompt := by
  cases d with
  | none => simp [track_activity] at h
  | some data =>
      by_cases hsig : data.tool_name.getD "" ∈ SIGNIFICANT_TOOLS
      · rw [track_activity_significant data t hsig] at h
        cases hx : extract_concept (data.tool_name.getD "")
            (data.tool_input.getD emptyToolInput) with
        | none =>
            rw [hx] at h
            cases h
            rfl
        | some c =>
            rw [hx] at h
            dsimp only at h
            by_cases hm : c ∈ t.concepts.getD []
            · rw [if_pos hm] at h
              cases h
              rfl
            · rw [if_neg hm] at h
              cases h
              rfl
      · rw [track_activity_insignificant data t hsig] at h
        cases h


lemma findSome_eq_firstRuleMatch (path : String)
    (l : List (List String × String)) :
    l.findSome? (fun pc =>
      (pc.1.find? (fun kw => pyIn (pyLower kw) (pyLower path))).map (fun _ => pc.2)) =
    firstRuleMatch path l := by
  induction l with
  | nil => rfl
  | cons pc rest ih =>
      obtain ⟨kws, topic⟩ := pc
      rw [List.findSome?_cons, firstRuleMatch]
      cases hf : kws.find? (fun kw => pyIn (pyLower kw) (pyLower path)) with
      | none =>
          have hany : ¬ (kws.any (fun kw => pyIn (pyLower kw) (pyLower path)) = true) := by
            intro hcon
            obtain ⟨x, hx, hpx⟩ := List.any_eq_true.mp hcon
            exact absurd hpx (by simpa using List.find?_eq_none.mp hf x hx)
          rw [if_neg hany]
          simpa [hf] using ih
      | some kw0 =>
          have hp := List.find?_some hf
          have hany : kws.any (fun kw => pyIn (pyLower kw) (pyLower path)) = true :=
            List.any_eq_true.mpr ⟨kw0, List.mem_of_find?_eq_some hf, hp⟩
          rw [if_pos hany]
          simp [hf]

lemma effTracker_idem (t : Tracker) : effTracker (effTracker t) = effTracker t := by
  simp [effTracker]

lemma check_learning_eff (d : Option EventData) (t : Tracker) (now : Int) :
    check_learning d (effTracker t) now =
      { decision := (check_learning d t now).decision
        saved := ((check_learning d t now).saved).map effTracker } := by
  simp only [check_learning]
  by_cases h1 : t.after_enabled.getD true = false ∨
      t.tool_count.getD 0 < TOOL_THRESHOLD
  · rw [if_pos h1, if_pos (by simpa [effTracker] using h1)]
    rfl
  · rw [if_neg h1, if_neg (by simpa [effTracker] using h1)]
    by_cases h2 : now - t.last_learning_prompt.getD 0 < COOLDOWN_MS
    · rw [if_pos h2, if_pos (by simpa [effTracker] using h2)]
      rfl
    · rw [if_neg h2, if_neg (by simpa [effTracker] using h2)]
      dsimp only
      simp [effTracker]

lemma track_activity_eff (d : Option EventData) (t : Tracker) :
    track_activity d (effTracker t) = (track_activity d t).map effTracker := by
  cases d with
  | none => rfl
  | some data =>
      by_cases hsig : data.tool_name.getD "" ∈ SIGNIFICANT_TOOLS
      · rw [track_activity_significant data t hsig,
          track_activity_significant data (effTracker t) hsig]
        cases hx : extract_concept (data.tool_name.getD "")
            (data.tool_input.getD emptyToolInput) with
        | none =>
            dsimp only
            simp [effTracker]
        | some c =>
            dsimp only
            by_cases hm : c ∈ t.concepts.getD []
            · rw [if_pos hm, if_pos (by simpa [effTracker] using hm)]
              simp [effTracker]
            · rw [if_neg hm, if_neg (by simpa [effTracker] using hm)]
              simp [effTracker]
      · rw [track_activity_insignificant data t hsig,
          track_activity_insignificant data (effTracker t) hsig]
        rfl

lemma effLast_runStep (s : HookStep) (t : Tracker) :
    effLast t ≤ effLast (runStep s t) := by
  cases s with
  | record d =>
      cases hd : track_activity d t with
      | none => simp [runStep, hd]
      | some t' =>
          have hl := track_activity_last d t t' hd
          simp [runStep, hd, effLast, hl]
  | check d now =>
      by_cases h1 : t.after_enabled.getD true = false ∨
          t.tool_count.getD 0 < TOOL_THRESHOLD
      · simp [runStep, check_learning, if_pos h1]
      · by_cases h2 : now - t.last_learning_prompt.getD 0 < COOLDOWN_MS
        · simp [runStep, check_learning, if_neg h1, if_pos h2]
        · simp only [runStep, check_learning, if_neg h1, if_neg h2,
            Option.getD_some, effLast]
          simp only [COOLDOWN_MS] at h2
          omega

end VibeLearning

namespace VibeLearning

/-! ## Claims -/

/-- C1: with after mode enabled, toolCount at least 3 and at least 900000 ms
elapsed since the last prompt, `check_learning` emits Block with the reason
template instantiated at the last element of the stored concepts (or the
literal fallback when that list is empty), and the state it persists has
tool_count 0 and last_learning_prompt equal to now. -/
theorem evaluate_blocks_and_resets (d : Option EventData) (t : Tracker) (now : Int)
    (hafter : t.after_enabled.getD true = true)
    (hcount : 3 ≤ t.tool_count.getD 0)
    (hcool : 900000 ≤ now - t.last_learning_prompt.getD 0) :
    check_learning d t now =
      { decision := Decision.block
          (prompt_reason ((t.concepts.getD []).getLast?.getD "the task you just completed")),
        saved := some { t with
          tool_count := some 0, last_learning_prompt := some now } } :=
  check_learning_eq_block d t now hafter hcount (by simpa [COOLDOWN_MS] using hcool)

/-- C1 witness at a concrete state. -/
theorem evaluate_blocks_and_resets_witness :
    check_learning none ⟨some 5, some 0, some true, some true, some ["caching"]⟩ 1000000 =
      { decision := Decision.block (prompt_reason "caching"),
        saved := some ⟨some 0, some 1000000, some true, some true, some ["caching"]⟩ } :=
  evaluate_blocks_and_resets none
    ⟨some 5, some 0, some true, some true, some ["caching"]⟩ 1000000
    (by decide) (by decide) (by decide)

/-- C2: with toolCount at least 3 but less than 900000 ms elapsed,
`check_learning` allows and saves nothing (tool_count is not reset), and —
when after mode is enabled — the very next evaluation at any time past the
cooldown emits Block without any further counting. -/
theorem evaluate_cooldown_allows_without_reset (d : Option EventData) (t : Tracker)
    (now : Int) (hcount : 3 ≤ t.tool_count.getD 0)
    (hcool : now - t.last_learning_prompt.getD 0 < 900000) :
    check_learning d t now = { decision := Decision.allow, saved := none } ∧
      (t.after_enabled.getD true = true →
        ∀ now2 : Int, 900000 ≤ now2 - t.last_learning_prompt.getD 0 →
          (check_learning d t now2).decision =
            Decision.block
              (prompt_reason ((t.concepts.getD []).getLast?.getD
                "the task you just completed"))) := by
  refine ⟨check_learning_eq_allow_of_cooldown d t now (by simpa [COOLDOWN_MS] using hcool), ?_⟩
  intro hafter now2 hcool2
  rw [check_learning_eq_block d t now2 hafter hcount (by simpa [COOLDOWN_MS] using hcool2)]
  rfl

/-- C2 witness at a concrete state. -/
theorem evaluate_cooldown_allows_without_reset_witness :
    check_learning none ⟨some 3, some 100, some true, some true, some []⟩ 200 =
        { decision := Decision.allow, saved := none } ∧
      ((⟨some 3, some 100, some true, some true, some []⟩ :
            Tracker).after_enabled.getD true = true →
        ∀ now2 : Int, 900000 ≤ now2 - 100 →
          (check_learning none ⟨some 3, some 100, some true, some true, some []⟩
              now2).decision =
            Decision.block (prompt_reason "the task you just completed")) :=
  evaluate_cooldown_allows_without_reset none
    ⟨some 3, some 100, some true, some true, some []⟩ 200 (by decide) (by decide)

/-- C3: when the stored concepts list has at most 10 elements and no
duplicates, any write by `track_activity` keeps both properties; and when a
significant event contributes an 11th distinct topic to a full list of 10,
exactly the oldest (head) entry is evicted: the persisted list is the tail
of the old list with the new topic appended. -/
theorem recentConcepts_bounded_nodup (d : EventData) (t : Tracker)
    (hlen : (t.concepts.getD []).length ≤ 10)
    (hnodup : (t.concepts.getD []).Nodup) :
    (∀ t', track_activity (some d) t = some t' →
        (t'.concepts.getD []).length ≤ 10 ∧ (t'.concepts.getD []).Nodup) ∧
    (∀ c, d.tool_name.getD "" ∈ SIGNIFICANT_TOOLS →
        extract_concept (d.tool_name.getD "") (d.tool_input.getD emptyToolInput) = some c →
        c ∉ t.concepts.getD [] → (t.concepts.getD []).length = 10 →
        track_activity (some d) t = some { t with
          tool_count := some (t.tool_count.getD 0 + 1)
          concepts := some ((t.concepts.getD []).tail ++ [c]) }) := by
  constructor
  · intro t' h
    by_cases hsig : d.tool_name.getD "" ∈ SIGNIFICANT_TOOLS
    · rw [track_activity_significant d t hsig] at h
      cases hx : extract_concept (d.tool_name.getD "")
          (d.tool_input.getD emptyToolInput) with
      | none =>
          rw [hx] at h
          dsimp only at h
          cases h
          exact ⟨hlen, hnodup⟩
      | some c =>
          rw [hx] at h
          dsimp only at h
          by_cases hm : c ∈ t.concepts.getD []
          · rw [if_pos hm] at h
            cases h
            exact ⟨hlen, hnodup⟩
          · rw [if_neg hm] at h
            cases h
            dsimp only
            have hnodup2 : ((t.concepts.getD []) ++ [c]).Nodup := by
              simp [List.nodup_append, hnodup, hm]
            by_cases hgt : ((t.concepts.getD []) ++ [c]).length > 10
            · rw [if_pos hgt]
              refine ⟨?_, (List.drop_sublist 1 _).nodup hnodup2⟩
              rw [Option.getD_some, List.length_drop]
              simp only [List.length_append, List.length_singleton] at hgt ⊢
              omega
            · rw [if_neg hgt]
              rw [Option.getD_some]
              exact ⟨by omega, hnodup2⟩
    · rw [track_activity_insignificant d t hsig] at h
      cases h
  · intro c hsig hx hm hlen10
    rw [track_activity_significant d t hsig, hx]
    dsimp only
    rw [if_neg hm]
    have hgt : ((t.concepts.getD []) ++ [c]).length > 10 := by
      simp [hlen10]
    rw [if_pos hgt]
    have hdrop : ((t.concepts.getD []) ++ [c]).drop 1 =
        (t.concepts.getD []).tail ++ [c] := by
      rw [List.drop_append_of_le_length (by omega), List.drop_one]
    rw [hdrop]

/-- C3 witness: an 11th distinct topic on a full list of 10 evicts a0. -/
theorem recentConcepts_bounded_nodup_witness :
    track_activity (some ⟨some "Edit", some ⟨some "src/auth/x.ts", none, none⟩⟩)
        ⟨none, none, none, none,
          some ["a0", "a1", "a2", "a3", "a4", "a5", "a6", "a7", "a8", "a9"]⟩ =
      some ⟨some 1, none, none, none,
        some ["a1", "a2", "a3", "a4", "a5", "a6", "a7", "a8", "a9", "authentication"]⟩ :=
  (recentConcepts_bounded_nodup ⟨some "Edit", some ⟨some "src/auth/x.ts", none, none⟩⟩
      ⟨none, none, none, none,
        some ["a0", "a1", "a2", "a3", "a4", "a5", "a6", "a7", "a8", "a9"]⟩
      (by decide) (by decide)).2 "authentication"
    (by decide) (by decide) (by decide) (by decide)

/-- C6: an event whose tool name is outside Edit, Write, Bash leaves the
tracker untouched and causes no persisted write: the hook exits 0 without
ever calling save_tracker (so even a failing write cannot matter). -/
theorem insignificant_event_no_write (d : EventData) (t : Tracker)
    (h : d.tool_name.getD "" ∉ SIGNIFICANT_TOOLS) :
    track_activity (some d) t = none ∧
      ∀ writeOk : Bool,
        track_activity_exit (some d) (some t) writeOk = ExitResult.exited 0 := by
  refine ⟨track_activity_insignificant d t h, ?_⟩
  intro writeOk
  unfold track_activity_exit
  rw [show load_tracker (some t) = t from rfl, track_activity_insignificant d t h]

/-- C6 witness: a Read event is a no-op. -/
theorem insignificant_event_no_write_witness :
    track_activity (some ⟨some "Read", none⟩) defaultTracker = none ∧
      ∀ writeOk : Bool,
        track_activity_exit (some ⟨some "Read", none⟩) (some defaultTracker) writeOk =
          ExitResult.exited 0 :=
  insignificant_event_no_write ⟨some "Read", none⟩ defaultTracker (by decide)

/-- C8: a significant event whose inferred topic is already a member of the
stored concepts list leaves the concepts field identical (only the tool
count is incremented). -/
theorem existing_topic_reinsertion_noop (d : EventData) (t : Tracker) (c : String)
    (hsig : d.tool_name.getD "" ∈ SIGNIFICANT_TOOLS)
    (hx : extract_concept (d.tool_name.getD "") (d.tool_input.getD emptyToolInput) = some c)
    (hm : c ∈ t.concepts.getD []) :
    track_activity (some d) t =
      some { t with tool_count := some (t.tool_count.getD 0 + 1) } := by
  rw [track_activity_significant d t hsig, hx]
  dsimp only
  rw [if_pos hm]

/-- C8 witness: re-inserting "authentication" leaves the list unchanged. -/
theorem existing_topic_reinsertion_noop_witness :
    track_activity (some ⟨some "Write", some ⟨some "auth.md", none, none⟩⟩)
        ⟨some 2, none, none, none, some ["authentication"]⟩ =
      some ⟨some 3, none, none, none, some ["authentication"]⟩ :=
  existing_topic_reinsertion_noop ⟨some "Write", some ⟨some "auth.md", none, none⟩⟩
    ⟨some 2, none, none, none, some ["authentication"]⟩ "authentication"
    (by decide) (by decide) (by decide)

/-- C9: the trigger evaluator never consults the parsed stdin event — for
any two stdin contents (parseable or not) its decision, reason text and
resulting persisted state, and its process exit behaviour, coincide. -/
theorem evaluator_independent_of_event (d1 d2 : Option EventData) (t : Tracker)
    (now : Int) (stored : Option Tracker) (writeOk : Bool) :
    check_learning d1 t now = check_learning d2 t now ∧
      check_learning_exit d1 stored now writeOk =
        check_learning_exit d2 stored now writeOk :=
  ⟨rfl, rfl⟩

/-- C4: topic inference is exactly the deterministic first-match evaluation
of the fixed ordered rule list against the path (case-insensitive
substring), with the git-then-docker command rules consulted only when no
path rule matched; "src/api/routes/user.tsx" yields "api-design" because
the api/endpoint/route rule is declared before the .tsx/.jsx rule. -/
theorem inferTopic_first_match_priority :
    (∀ tool_name tool_input,
        extract_concept tool_name tool_input = inferTopicSpec tool_input) ∧
      extract_concept "Edit" ⟨some "src/api/routes/user.tsx", none, none⟩ =
        some "api-design" := by
  constructor
  · intro tn ti
    simp only [extract_concept, inferTopicSpec]
    rw [findSome_eq_firstRuleMatch]
  · decide

/-- C5 counterexample: the claim that every internal failure (including a
failing state-file write) is caught is false — save_tracker is called
outside any exception handler, so an Edit event whose state write fails
terminates with an uncaught error, not exit status 0. -/
theorem unguarded_write_failure_raises :
    track_activity_exit (some ⟨some "Edit", none⟩) (some defaultTracker) false =
      ExitResult.raised := rfl

/-- C5 amended: failures while reading stdin or the tracker file are caught
and defaulted, and whenever the state-file write succeeds each hook entry
point terminates cleanly with exit status 0; a failure during the write
itself propagates uncaught. -/
theorem hooks_exit_zero_when_write_succeeds (d : Option EventData)
    (stored : Option Tracker) (now : Int) :
    check_learning_exit d stored now true = ExitResult.exited 0 ∧
      track_activity_exit d stored true = ExitResult.exited 0 := by
  refine ⟨?_, ?_⟩
  · unfold check_learning_exit
    cases hs : (check_learning d (load_tracker stored) now).saved with
    | none => simp [hs]
    | some u => simp [hs]
  · unfold track_activity_exit
    cases hs : track_activity d (load_tracker stored) with
    | none => simp [hs]
    | some u => simp [hs]

/-- C7: across every sequence of recorder and evaluator runs, the persisted
last_learning_prompt value never decreases: the recorder never touches it
and the evaluator only overwrites it with a now at least COOLDOWN_MS past
the stored value. -/
theorem lastLearningPrompt_monotone (steps : List HookStep) (t : Tracker) :
    effLast t ≤ effLast (runSteps steps t) := by
  induction steps generalizing t with
  | nil => exact le_refl _
  | cons s rest ih =>
      have h1 := effLast_runStep s t
      have h2 := ih (runStep s t)
      have hrw : runSteps (s :: rest) t = runSteps rest (runStep s t) := rfl
      rw [hrw]
      exact le_trans h1 h2

/-- C10: when the stored tracker parses but has fields missing, both hooks
default each field individually at its point of use and operate on the
remaining fields — filling the absent fields with their per-field defaults
changes neither the decision nor the effective persisted state — while the
wholesale default record is used exactly when the file is absent or
unparseable. -/
theorem missing_fields_defaulted_pointwise (d : Option EventData) (t : Tracker)
    (now : Int) :
    load_tracker none = defaultTracker ∧
    load_tracker (some t) = t ∧
    (check_learning d t now).decision = (check_learning d (effTracker t) now).decision ∧
    effTracker (runStep (HookStep.check d now) t) =
      effTracker (runStep (HookStep.check d now) (effTracker t)) ∧
    effTracker (runStep (HookStep.record d) t) =
      effTracker (runStep (HookStep.record d) (effTracker t)) := by
  refine ⟨rfl, rfl, ?_, ?_, ?_⟩
  · rw [check_learning_eff]
  · simp only [runStep, check_learning_eff]
    cases hs : (check_learning d t now).saved with
    | none => simp [effTracker_idem]
    | some u => simp [effTracker_idem]
  · simp only [runStep, track_activity_eff]
    cases hs : track_activity d t with
    | none => simp [effTracker_idem]
    | some u => simp [effTracker_idem]

end VibeLearning
